import Mathlib

/-!
Verification development for the IT-System-Architecture-Design-AI-Assistant
repository (three Python modules: `architecture_agent.py`, `app.py`,
`diagram_generator.py`).

The development shallowly embeds the data-transformation logic of the three
modules:

* the parse-and-repair stage of `_call_model` (cleanup of fenced model
  output, JSON decoding, fallback substitution, `setdefault` key repair);
* the LangGraph turn pipeline (`_llm_node`, state merging with the
  `operator.add` channels, `call_llm_for_architecture`);
* the requirement-text concatenation and error dispatch of `app.py`;
* the grouping / cluster / edge emission of
  `diagram_generator.generate_graphviz_diagram`.

Python's `json.loads` is modelled by an executable fuel-based parser over
character lists that mirrors the stdlib decoder (strings with escapes,
objects with last-wins duplicate keys, arrays, the number regex kept as a
lexeme, the `null` / `true` / `false` / `NaN` / `Infinity` literals,
whitespace and trailing-garbage handling).  Failures that Python signals by
exceptions are modelled with `Option`/sum types.
-/

/-! ### Characters and Python string helpers -/

/-- The double-quote character. -/
def quoteChar : Char := Char.ofNat 34

/-- The backslash character. -/
def backslashChar : Char := Char.ofNat 92

/-- The opening curly-brace character. -/
def lbraceChar : Char := Char.ofNat 123

/-- The closing curly-brace character. -/
def rbraceChar : Char := Char.ofNat 125

/-- The opening square-bracket character. -/
def lbrackChar : Char := '['

/-- The closing square-bracket character. -/
def rbrackChar : Char := ']'

/-- The backtick character, used by the code-fence cleanup. -/
def backtickChar : Char := Char.ofNat 96

/-- ASCII decimal digit test. -/
def isDigitChar (c : Char) : Bool := '0' ≤ c && c ≤ '9'

/-- The whitespace set of Python's `str.strip` (ASCII portion: space, tab,
newline, carriage return, vertical tab, form feed). -/
def isPyWs (c : Char) : Bool :=
  c = ' ' || c = Char.ofNat 9 || c = Char.ofNat 10 || c = Char.ofNat 13 ||
  c = Char.ofNat 11 || c = Char.ofNat 12

/-- Python `str.strip` on a character list: drop leading and trailing
whitespace. -/
def pyStrip (s : List Char) : List Char :=
  ((s.dropWhile isPyWs).reverse.dropWhile isPyWs).reverse

/-- Python `str.strip` on strings. -/
def py_strip (s : String) : String := (pyStrip s.toList).asString

/-- Python `str.lower` (ASCII portion), character by character. -/
def pyLower (s : String) : String := (s.toList.map Char.toLower).asString

/-! ### JSON values, mirroring the result of Python `json.loads` -/

/-- A decoded JSON value.  Numbers keep the matched lexeme (the embedding
never needs numeric arithmetic); objects are association lists in insertion
order with unique keys, exactly like a Python `dict`. -/
inductive Json where
  | null : Json
  | bool (b : Bool) : Json
  | num (lexeme : String) : Json
  | str (s : String) : Json
  | arr (elems : List Json) : Json
  | obj (entries : List (String × Json)) : Json

/-- JSON whitespace (the only characters `json.loads` skips between
tokens): space, tab, newline, carriage return. -/
def jsonWs (c : Char) : Bool :=
  c = ' ' || c = Char.ofNat 9 || c = Char.ofNat 10 || c = Char.ofNat 13

/-- Skip JSON whitespace. -/
def skipJWs (s : List Char) : List Char := s.dropWhile jsonWs

/-- Value of a hexadecimal digit, if any. -/
def hexVal (c : Char) : Option Nat :=
  if '0' ≤ c ∧ c ≤ '9' then some (c.toNat - '0'.toNat)
  else if 'a' ≤ c ∧ c ≤ 'f' then some (c.toNat - 'a'.toNat + 10)
  else if 'A' ≤ c ∧ c ≤ 'F' then some (c.toNat - 'A'.toNat + 10)
  else none

/-- Decode a single-character JSON escape (everything except `\\u`). -/
def escChar (e : Char) : Option Char :=
  if e = quoteChar then some quoteChar
  else if e = backslashChar then some backslashChar
  else if e = '/' then some '/'
  else if e = 'b' then some (Char.ofNat 8)
  else if e = 'f' then some (Char.ofNat 12)
  else if e = 'n' then some (Char.ofNat 10)
  else if e = 'r' then some (Char.ofNat 13)
  else if e = 't' then some (Char.ofNat 9)
  else none

/-- Scan the body of a JSON string after the opening quote, mirroring the
stdlib `py_scanstring` in strict mode: unescaped control characters below
0x20 are rejected, escapes are decoded (`\\uXXXX` to the code point - the
model does not recombine surrogate pairs, which no claim exercises).
Returns the decoded content and the input remaining after the closing
quote. -/
def scanStringBody : Nat → List Char → Option (List Char × List Char)
  | 0, _ => none
  | _ + 1, [] => none
  | fuel + 1, c :: cs =>
    if c = quoteChar then some ([], cs)
    else if c = backslashChar then
      match cs with
      | [] => none
      | e :: cs2 =>
        if e = 'u' then
          match cs2 with
          | h1 :: h2 :: h3 :: h4 :: cs3 =>
            match hexVal h1, hexVal h2, hexVal h3, hexVal h4 with
            | some a, some b, some c2, some d =>
              (scanStringBody fuel cs3).map
                (fun r => (Char.ofNat (((a * 16 + b) * 16 + c2) * 16 + d) :: r.1, r.2))
            | _, _, _, _ => none
          | _ => none
        else
          match escChar e with
          | some ch => (scanStringBody fuel cs2).map (fun r => (ch :: r.1, r.2))
          | none => none
    else if c.toNat < 32 then none
    else (scanStringBody fuel cs).map (fun r => (c :: r.1, r.2))

/-- Optional fraction part of the JSON number regex: `(\.\d+)?`.  Returns
the matched characters (possibly none) and the rest. -/
def numFrac (s : List Char) : List Char × List Char :=
  match s with
  | [] => ([], s)
  | c :: rest =>
    if c = '.' then
      let ds := rest.takeWhile isDigitChar
      if ds.isEmpty then ([], s) else (c :: ds, rest.drop ds.length)
    else ([], s)

/-- Optional exponent part of the JSON number regex: `([eE][-+]?\d+)?`. -/
def numExp (s : List Char) : List Char × List Char :=
  match s with
  | [] => ([], s)
  | c :: rest =>
    if c = 'e' || c = 'E' then
      let signAndRest : List Char × List Char :=
        match rest with
        | c2 :: r3 => if c2 = '+' || c2 = '-' then ([c2], r3) else ([], rest)
        | [] => ([], rest)
      let ds := signAndRest.2.takeWhile isDigitChar
      if ds.isEmpty then ([], s)
      else (c :: (signAndRest.1 ++ ds), signAndRest.2.drop ds.length)
    else ([], s)

/-- Match the stdlib scanner's number regular expression
`-?(0|[1-9]\d*)(\.\d+)?([eE][-+]?\d+)?` at the start of the input,
returning the lexeme and the rest. -/
def scanNumber (s : List Char) : Option (List Char × List Char) :=
  let signAndRest : List Char × List Char :=
    match s with
    | c :: rest => if c = '-' then ([c], rest) else ([], s)
    | [] => ([], s)
  match signAndRest.2 with
  | [] => none
  | c :: rest =>
    if c = '0' then
      let fr := numFrac rest
      let ex := numExp fr.2
      some (signAndRest.1 ++ [c] ++ fr.1 ++ ex.1, ex.2)
    else if isDigitChar c then
      let ds := rest.takeWhile isDigitChar
      let fr := numFrac (rest.drop ds.length)
      let ex := numExp fr.2
      some (signAndRest.1 ++ (c :: ds) ++ fr.1 ++ ex.1, ex.2)
    else none

/-- Insert a key into a Python-`dict`-like association list: an existing
key keeps its position and gets the new value, a fresh key is appended. -/
def dictInsert (kvs : List (String × Json)) (k : String) (v : Json) :
    List (String × Json) :=
  match kvs with
  | [] => [(k, v)]
  | (k2, v2) :: rest =>
    if k2 = k then (k2, v) :: rest else (k2, v2) :: dictInsert rest k v

/-- Match a literal token at the start of the input. -/
def expectLit (lit s : List Char) : Option (List Char) :=
  if lit.isPrefixOf s then some (s.drop lit.length) else none

mutual

/-- Scan one JSON value (the input must start at a non-whitespace
character, as in the stdlib `scan_once`).  Mirrors the stdlib dispatcher:
strings, objects, arrays, `null`/`true`/`false`, the number regex, and the
`NaN`/`Infinity`/`-Infinity` constants Python accepts by default. -/
def scanValue : Nat → List Char → Option (Json × List Char)
  | 0, _ => none
  | _ + 1, [] => none
  | fuel + 1, c :: cs =>
    if c = quoteChar then
      (scanStringBody (cs.length + 1) cs).map
        (fun r => (Json.str r.1.asString, r.2))
    else if c = lbraceChar then scanObjBody fuel (skipJWs cs)
    else if c = lbrackChar then scanArrBody fuel (skipJWs cs)
    else if c = 'n' then
      (expectLit "null".toList (c :: cs)).map (fun r => (Json.null, r))
    else if c = 't' then
      (expectLit "true".toList (c :: cs)).map (fun r => (Json.bool true, r))
    else if c = 'f' then
      (expectLit "false".toList (c :: cs)).map (fun r => (Json.bool false, r))
    else if c = 'N' then
      (expectLit "NaN".toList (c :: cs)).map (fun r => (Json.num "NaN", r))
    else if c = 'I' then
      (expectLit "Infinity".toList (c :: cs)).map
        (fun r => (Json.num "Infinity", r))
    else if c = '-' then
      match scanNumber (c :: cs) with
      | some r => some (Json.num r.1.asString, r.2)
      | none =>
        (expectLit "-Infinity".toList (c :: cs)).map
          (fun r => (Json.num "-Infinity", r))
    else if isDigitChar c then
      (scanNumber (c :: cs)).map (fun r => (Json.num r.1.asString, r.2))
    else none

/-- Scan an object body after the opening brace (whitespace already
skipped): either an immediate closing brace, or a member list. -/
def scanObjBody : Nat → List Char → Option (Json × List Char)
  | 0, _ => none
  | _ + 1, [] => none
  | fuel + 1, c :: cs =>
    if c = rbraceChar then some (Json.obj [], cs)
    else scanMembers fuel (c :: cs) []

/-- Scan `"key": value` members separated by commas, accumulating with
`dictInsert` (so a duplicate key overwrites its earlier value, as in a
Python dict). -/
def scanMembers : Nat → List Char → List (String × Json) →
    Option (Json × List Char)
  | 0, _, _ => none
  | _ + 1, [], _ => none
  | fuel + 1, c :: cs, acc =>
    if c = quoteChar then
      match scanStringBody (cs.length + 1) cs with
      | none => none
      | some (key, r1) =>
        match skipJWs r1 with
        | c2 :: r2 =>
          if c2 = ':' then
            match scanValue fuel (skipJWs r2) with
            | none => none
            | some (v, r3) =>
              let acc2 := dictInsert acc key.asString v
              match skipJWs r3 with
              | c3 :: r4 =>
                if c3 = ',' then scanMembers fuel (skipJWs r4) acc2
                else if c3 = rbraceChar then some (Json.obj acc2, r4)
                else none
              | [] => none
          else none
        | [] => none
    else none

/-- Scan an array body after the opening bracket (whitespace already
skipped). -/
def scanArrBody : Nat → List Char → Option (Json × List Char)
  | 0, _ => none
  | _ + 1, [] => none
  | fuel + 1, c :: cs =>
    if c = rbrackChar then some (Json.arr [], cs)
    else scanElems fuel (c :: cs) []

/-- Scan comma-separated array elements. -/
def scanElems : Nat → List Char → List Json → Option (Json × List Char)
  | 0, _, _ => none
  | fuel + 1, s, acc =>
    match scanValue fuel s with
    | none => none
    | some (v, r1) =>
      match skipJWs r1 with
      | c :: r2 =>
        if c = ',' then scanElems fuel (skipJWs r2) (acc ++ [v])
        else if c = rbrackChar then some (Json.arr (acc ++ [v]), r2)
        else none
      | [] => none

end

/-- Model of Python `json.loads`: skip leading whitespace, scan one value,
skip trailing whitespace, and reject any extra data.  The fuel bound
`4 * length + 4` strictly dominates the number of scanner steps (each
mutual hop either consumes a character or is one of at most three
char-free handoffs per consumed character), so the model never fails for
lack of fuel on an input the stdlib decoder accepts. -/
def json_loads (s : String) : Option Json :=
  match scanValue (4 * s.length + 4) (skipJWs s.toList) with
  | some (j, rest) => if (skipJWs rest).isEmpty then some j else none
  | none => none

/-! ### `architecture_agent._call_model`: cleanup, decode, repair

Lines 196-217 and 239-243 of `architecture_agent.py`. -/

/-- Index of the last occurrence of a character. -/
def lastIndexOf (ch : Char) (s : List Char) : Option Nat :=
  (s.enum.filterMap (fun p => if p.2 = ch then some p.1 else none)).getLast?

/-- Index of the first occurrence of a character strictly before position
`j`. -/
def firstIndexBefore (ch : Char) (j : Nat) (s : List Char) : Option Nat :=
  (s.enum.filterMap (fun p => if p.2 = ch ∧ p.1 < j then some p.1 else none)).head?

/-- The match of `re.search` with pattern `\{[\s\S]*\}`: the segment from
the first opening brace that has a closing brace after it, up to the last
closing brace of the whole text (the Kleene star is greedy). -/
def extractJsonBlock (s : List Char) : Option (List Char) :=
  match lastIndexOf rbraceChar s with
  | none => none
  | some j =>
    match firstIndexBefore lbraceChar j s with
    | none => none
    | some i => some ((s.drop i).take (j - i + 1))

/-- Does the text start with a triple-backtick code fence? -/
def startsWithFence (s : List Char) : Bool :=
  s.take 3 = [backtickChar, backtickChar, backtickChar]

/-- The cleanup logic of `_call_model` (lines 199-206): strip the raw
model output; if it starts with a code fence, replace it by the first
brace-delimited block found by the regex (keeping the stripped text when
the regex finds nothing). -/
def clean_model_output (raw : String) : String :=
  let s := pyStrip raw.toList
  if startsWithFence s then
    match extractJsonBlock s with
    | some m => m.asString
    | none => s.asString
  else s.asString

/-- Python `dict` lookup on an association list (first match; the parser
and `setdefault` keep keys unique). -/
def dictGet? (kvs : List (String × Json)) (k : String) : Option Json :=
  match kvs with
  | [] => none
  | (k2, v) :: rest => if k2 = k then some v else dictGet? rest k

/-- Python `dict.setdefault`: keep an existing key untouched, append an
absent key with the default value. -/
def setdefault (kvs : List (String × Json)) (k : String) (v : Json) :
    List (String × Json) :=
  match dictGet? kvs k with
  | some _ => kvs
  | none => kvs ++ [(k, v)]

/-- The four `setdefault` calls of `_call_model` (lines 240-243). -/
def ensure_kvs (kvs : List (String × Json)) : List (String × Json) :=
  setdefault
    (setdefault
      (setdefault
        (setdefault kvs "summary" (Json.str "No summary provided."))
        "pattern_id" (Json.str "unknown"))
      "components" (Json.arr []))
    "connections" (Json.arr [])

/-- Applying the `setdefault` block to a decoded payload.  Python raises
`AttributeError` when the payload is not a dict (e.g. `json.loads("42")`);
that failure is `none` here.  The `setdefault` calls sit outside the
`try`/`except` of `_call_model`, so this failure is not recovered. -/
def ensure_plan_keys : Json → Option Json
  | Json.obj kvs => some (Json.obj (ensure_kvs kvs))
  | _ => none

/-- Mirror of `_fallback_architecture` (lines 252-273), verbatim from the source
dict literal. -/
def _fallback_architecture (reason : String) : Json :=
  Json.obj [
    ("summary", Json.str ("Fallback architecture used because: " ++ reason ++
      "\n\nThis is a simple three-tier web application.")),
    ("pattern_id", Json.str "fallback_three_tier"),
    ("components", Json.arr [
      Json.obj [("id", Json.str "client"), ("label", Json.str "Client"),
        ("type", Json.str "client")],
      Json.obj [("id", Json.str "web"), ("label", Json.str "Web Server"),
        ("type", Json.str "web")],
      Json.obj [("id", Json.str "app"), ("label", Json.str "Application Server"),
        ("type", Json.str "app")],
      Json.obj [("id", Json.str "db"), ("label", Json.str "Database"),
        ("type", Json.str "database")]]),
    ("connections", Json.arr [
      Json.obj [("from", Json.str "client"), ("to", Json.str "web"),
        ("label", Json.str "HTTP/HTTPS")],
      Json.obj [("from", Json.str "web"), ("to", Json.str "app"),
        ("label", Json.str "Internal HTTP")],
      Json.obj [("from", Json.str "app"), ("to", Json.str "db"),
        ("label", Json.str "SQL")]])]

/-- The parse-and-repair stage of `_call_model` applied to the raw model
output: clean the text, decode it (substituting the fallback architecture
on decode failure, lines 212-217), then run the `setdefault` block
(lines 239-243).  `none` models the uncaught `AttributeError` raised when
the decoded payload is not a dict. -/
def parse_and_repair (raw : String) : Option Json :=
  let plan :=
    match json_loads (clean_model_output raw) with
    | some j => j
    | none => _fallback_architecture "Could not parse JSON from model output."
  ensure_plan_keys plan

/-- Is a decoded value a JSON object (a Python dict)? -/
def isJsonObj : Json → Bool
  | Json.obj _ => true
  | _ => false

/-- The three ways the generative call of `_call_model` can end, as seen
by its exception handlers: a raw text response, an
`openai.InternalServerError`, or any other exception (connectivity
failure). -/
inductive LLMOutcome where
  | ok (raw_text : String) : LLMOutcome
  | internalServerError : LLMOutcome
  | connectionFailure : LLMOutcome

/-- How `_call_model` terminates: a parsed plan, a raised `RuntimeError`
with its message (lines 226-228 and 235-237), or the uncaught
`AttributeError` of the `setdefault` block on a non-dict payload. -/
inductive CallResult where
  | plan (arch_plan : Json) : CallResult
  | runtimeError (msg : String) : CallResult
  | attributeError : CallResult

/-- Mirror of `_call_model` as a function of the generative call's outcome (the
missing-credentials check at its top is outside every claim and assumed
to pass). -/
def _call_model (outcome : LLMOutcome) : CallResult :=
  match outcome with
  | LLMOutcome.ok raw =>
    match parse_and_repair raw with
    | some j => CallResult.plan j
    | none => CallResult.attributeError
  | LLMOutcome.internalServerError =>
    CallResult.runtimeError
      "Server error from genailab.tcs.in (500). Check gateway logs / configuration."
  | LLMOutcome.connectionFailure =>
    CallResult.runtimeError
      "Connection error: unable to reach Azure OpenAI. Please check network / VPN."

/-! ### `diagram_generator.generate_graphviz_diagram`

The plan dict reaches the synthesizer with `.get("components", [])` /
`.get("connections", [])`; a missing list key behaves exactly like an
empty list, so the embedding carries the two lists directly.  Component
and connection dicts are read only through the keys `id`, `label`, `type`
and `from`, `to`, `label`; an `Option String` field models presence or
absence of the key (the data model of the plan schema makes the values
strings). -/

/-- A component dict as the synthesizer reads it.  `id?`, `label?` are
accessed with `c["id"]` / `c["label"]` (KeyError when absent), `type?`
with `c.get("type")`. -/
structure Component where
  id? : Option String
  label? : Option String
  type? : Option String
deriving DecidableEq

/-- A connection dict as the synthesizer reads it: `src?` is the `"from"`
key, `dst?` the `"to"` key, read with `.get` (no KeyError). -/
structure Connection where
  src? : Option String
  dst? : Option String
  label? : Option String
deriving DecidableEq

/-- The plan as consumed by `generate_graphviz_diagram`. -/
structure PlanDict where
  components : List Component
  connections : List Connection
deriving DecidableEq

/-- The six layout groups of the `layers` dict (lines 55-62). -/
inductive Layer where
  | frontend | gateway | services | databases | pipeline | other
deriving DecidableEq

/-- Mirror of `(c.get("type") or "").lower()` (line 65): a missing or empty type
becomes the empty string, then ASCII lowercasing. -/
def normType (c : Component) : String := pyLower ((c.type?).getD "")

/-- The classification chain of lines 64-77: each component goes to
exactly one group, anything unrecognized to `other`. -/
def layerOf (c : Component) : Layer :=
  if normType c = "client" ∨ normType c = "web" then Layer.frontend
  else if normType c = "gateway" then Layer.gateway
  else if normType c = "app" ∨ normType c = "service" ∨
    normType c = "microservice" then Layer.services
  else if normType c = "database" ∨ normType c = "db" then Layer.databases
  else if normType c = "data_pipeline" ∨ normType c = "pipeline" ∨
    normType c = "etl" then Layer.pipeline
  else Layer.other

/-- The members of one group: the classification loop appends each
component to the list of its group in input order, which is this
filter. -/
def layerComps (p : PlanDict) (l : Layer) : List Component :=
  p.components.filter (fun c => decide (layerOf c = l))

/-- The subgraph name passed to each `add_cluster` call (lines 89-94). -/
def clusterName : Layer → String
  | Layer.frontend => "cluster_frontend"
  | Layer.gateway => "cluster_gateway"
  | Layer.services => "cluster_services"
  | Layer.databases => "cluster_databases"
  | Layer.pipeline => "cluster_pipeline"
  | Layer.other => "cluster_other"

/-- The visual label passed to each `add_cluster` call (lines 89-94). -/
def clusterLabel : Layer → String
  | Layer.frontend => "Frontend"
  | Layer.gateway => "API Gateway"
  | Layer.services => "Services"
  | Layer.databases => "Databases"
  | Layer.pipeline => "Reporting / Data Pipeline"
  | Layer.other => "Other"

/-- The order in which the six `add_cluster` calls appear in the source. -/
def layerOrder : List Layer :=
  [Layer.frontend, Layer.gateway, Layer.services, Layer.databases,
   Layer.pipeline, Layer.other]

/-- One emitted visual cluster: its Graphviz subgraph name, its label, and
its `(id, label)` nodes in emission order. -/
structure Cluster where
  name : String
  label : String
  nodes : List (String × String)
deriving DecidableEq

/-- The structured graph the synthesizer hands to Graphviz: the clusters
in emission order and the directed labeled edges in emission order.  (The
rendering to SVG and the uuid-named output file are the opaque rendering
collaborator and are outside the embedding.) -/
structure Diagram where
  clusters : List Cluster
  edges : List (String × String × String)
deriving DecidableEq

/-- Mirror of `sg.node(c["id"], c["label"])` (line 86): both keys must be present,
otherwise KeyError. -/
def nodeOf (c : Component) : Option (String × String) :=
  match c.id?, c.label? with
  | some i, some l => some (i, l)
  | _, _ => none

/-- Sequential fail-fast traversal (the loop over `comps` in
`add_cluster`: the first missing key raises and aborts the whole call). -/
def traverseOption (f : α → Option β) : List α → Option (List β)
  | [] => some []
  | a :: as =>
    match f a with
    | none => none
    | some b =>
      match traverseOption f as with
      | none => none
      | some bs => some (b :: bs)

/-- Mirror of `add_cluster` (lines 80-86): an empty group adds nothing (`some none`:
no cluster, no error); a non-empty group emits a cluster with one node per
component, or raises KeyError (`none`) if any component lacks `id` or
`label`. -/
def add_cluster (name label : String) (comps : List Component) :
    Option (Option Cluster) :=
  if comps = [] then some none
  else (traverseOption nodeOf comps).map (fun ns => some (Cluster.mk name label ns))

/-- The edge loop body (lines 97-106): `conn.get("from")` / `conn.get("to")`
must both be present and non-empty (Python truthiness), otherwise the
connection is skipped; the label defaults to the empty string.  The
endpoints are passed to `dot.edge` as-is - they are never checked against
the component ids. -/
def edgeOf (conn : Connection) : Option (String × String × String) :=
  match conn.src?, conn.dst? with
  | some s, some d =>
    if s = "" ∨ d = "" then none
    else some (s, d, (conn.label?).getD "")
  | _, _ => none

/-- Python truthiness of an optional string (`not src` is true for a
missing key and for the empty string). -/
def pyTruthy (o : Option String) : Bool :=
  match o with
  | none => false
  | some s => decide (s ≠ "")

/-- Mirror of `generate_graphviz_diagram` (lines 29-126) up to the opaque rendering
call: classify, emit the six clusters in source order (any KeyError
aborts), then emit the edges. -/
def generate_graphviz_diagram (p : PlanDict) : Option Diagram :=
  Option.bind (add_cluster (clusterName Layer.frontend) (clusterLabel Layer.frontend)
      (layerComps p Layer.frontend)) (fun f =>
  Option.bind (add_cluster (clusterName Layer.gateway) (clusterLabel Layer.gateway)
      (layerComps p Layer.gateway)) (fun g =>
  Option.bind (add_cluster (clusterName Layer.services) (clusterLabel Layer.services)
      (layerComps p Layer.services)) (fun s =>
  Option.bind (add_cluster (clusterName Layer.databases) (clusterLabel Layer.databases)
      (layerComps p Layer.databases)) (fun db =>
  Option.bind (add_cluster (clusterName Layer.pipeline) (clusterLabel Layer.pipeline)
      (layerComps p Layer.pipeline)) (fun pl =>
  Option.bind (add_cluster (clusterName Layer.other) (clusterLabel Layer.other)
      (layerComps p Layer.other)) (fun o =>
  some (Diagram.mk ([f, g, s, db, pl, o].filterMap id)
    (p.connections.filterMap edgeOf))))))))

/-! ### LangGraph workflow state (`ArchState`, `_llm_node`,
`call_llm_for_architecture`)

The LangGraph pieces that the module configures (lines 280-331) are
third-party machinery with documented semantics: a channel annotated with
`operator.add` merges an update into the stored value by list
concatenation, an unannotated channel is overwritten by the update, and
the `MemorySaver` checkpointer replays the stored state of the thread
before applying the invocation's input as an update. -/

/-- The `ArchState` TypedDict (lines 280-293). -/
structure ArchState where
  messages : List String
  arch_plan : Json
  arch_history : List Json

/-- Merge an update into a state: `messages` and `arch_history` are
`Annotated[..., operator.add]` (concatenation), `arch_plan` is a plain
channel (last value wins). -/
def mergeState (old upd : ArchState) : ArchState :=
  ArchState.mk (old.messages ++ upd.messages) upd.arch_plan
    (old.arch_history ++ upd.arch_history)

/-- Mirror of `_llm_node` (lines 296-321), parameterized by the generative
capability `oracle` (what the model answers given the requirements text
and the previous plan shown to it).  `none` models a raised exception: the
missing-requirements `RuntimeError`, or any error escaping `_call_model`. -/
def _llm_node (oracle : String → Option Json → LLMOutcome)
    (state : ArchState) : Option ArchState :=
  match state.messages.getLast? with
  | none => none
  | some latest =>
    match _call_model (oracle latest state.arch_history.getLast?) with
    | CallResult.plan j => some (ArchState.mk [] j [j])
    | _ => none

/-- One graph invocation on the stored thread state: merge the input as an
update, run the single `llm` node, merge its returned delta. -/
def graph_invoke (oracle : String → Option Json → LLMOutcome)
    (stored input : ArchState) : Option ArchState :=
  let merged := mergeState stored input
  (_llm_node oracle merged).map (mergeState merged)

/-- An empty dict, the `arch_plan` of the initial state. -/
def emptyPlan : Json := Json.obj []

/-- The `initial_state` literal of `call_llm_for_architecture`
(lines 353-357). -/
def initialState (user_message : String) : ArchState :=
  ArchState.mk [user_message] emptyPlan []

/-- Python truthiness of a decoded value, for the
`final_state.get("arch_plan") or _fallback_architecture(...)` guard.  A
number is falsy when its mantissa has no non-zero digit (`0`, `-0.0`,
`0e5`, ...); `NaN` and the infinities are truthy. -/
def numTruthy (lx : String) : Bool :=
  if lx = "NaN" || lx = "Infinity" || lx = "-Infinity" then true
  else (lx.toList.takeWhile (fun c => !(c = 'e' || c = 'E'))).any
    (fun c => isDigitChar c && c ≠ '0')

/-- Python truthiness of a decoded JSON value. -/
def jsonTruthy : Json → Bool
  | Json.null => false
  | Json.bool b => b
  | Json.num lx => numTruthy lx
  | Json.str s => !s.isEmpty
  | Json.arr xs => !xs.isEmpty
  | Json.obj kvs => !kvs.isEmpty

/-- Mirror of `call_llm_for_architecture` (lines 334-367) acting on the stored state
of one conversation (`thread_id`): invoke the graph and return the new
stored state together with the plan handed back to the caller (the stored
`arch_plan`, or the fallback if it were falsy). -/
def call_llm_for_architecture (oracle : String → Option Json → LLMOutcome)
    (stored : ArchState) (user_message : String) :
    Option (ArchState × Json) :=
  (graph_invoke oracle stored (initialState user_message)).map (fun fs =>
    (fs, if jsonTruthy fs.arch_plan then fs.arch_plan
         else _fallback_architecture "Missing arch_plan from LangGraph state."))

/-- The `previous_arch_plan` that `_llm_node` hands to `_call_model` and
`build_prompt_messages` during a turn (lines 310-313): the last plan of
the merged state's history. -/
def baseline_for_turn (stored : ArchState) (user_message : String) :
    Option Json :=
  (mergeState stored (initialState user_message)).arch_history.getLast?

/-! ### `app.api_chat`: requirements concatenation and error dispatch -/

/-- The refinement marker prefix of `app.py` line 86/93. -/
def refinement_marker : String := "Refinement request: "

/-- The `for idx, msg in enumerate(history)` loop (lines 77-86), carrying
the running index: strip each entry, skip empties, keep the entry at
index 0 verbatim, prefix later entries. -/
def history_parts : Nat → List String → List String
  | _, [] => []
  | idx, msg :: rest =>
    let m := py_strip msg
    if m = "" then history_parts (idx + 1) rest
    else (if idx = 0 then m else refinement_marker ++ m) ::
      history_parts (idx + 1) rest

/-- Lines 76-93: the history parts followed by the stripped latest
message - verbatim when no part was collected, prefixed otherwise. -/
def build_parts (history : List String) (message : String) : List String :=
  let parts := history_parts 0 history
  let user_message := py_strip message
  if user_message = "" then parts
  else if parts = [] then [user_message]
  else parts ++ [refinement_marker ++ user_message]

/-- Mirror of `full_requirements_text` (line 95): join with blank lines and strip. -/
def full_requirements_text (history : List String) (message : String) :
    String :=
  py_strip (String.intercalate "\n\n" (build_parts history message))

/-- How `api_chat` answers once the agent call finishes (lines 97-120): a
successful plan flows on to diagram generation and the 200 payload; a
`RuntimeError` is caught and returned as a 502 error payload; any other
exception escapes the handler (Flask's generic 500). -/
inductive ApiOutcome where
  | success (arch_plan : Json) : ApiOutcome
  | badGateway (errorMsg : String) : ApiOutcome
  | uncaught : ApiOutcome

/-- The `try`/`except RuntimeError` dispatch of `api_chat` (lines 97-107). -/
def api_chat_dispatch : CallResult → ApiOutcome
  | CallResult.plan j => ApiOutcome.success j
  | CallResult.runtimeError m => ApiOutcome.badGateway m
  | CallResult.attributeError => ApiOutcome.uncaught

/-! ### Helper lemmas -/

/-- Does a decoded plan dict carry all four top-level keys? -/
def hasAllPlanKeys (kvs : List (String × Json)) : Bool :=
  (dictGet? kvs "summary").isSome && (dictGet? kvs "pattern_id").isSome &&
  (dictGet? kvs "components").isSome && (dictGet? kvs "connections").isSome

lemma dictGet?_append (kvs l2 : List (String × Json)) (k : String) :
    dictGet? (kvs ++ l2) k =
      match dictGet? kvs k with
      | some v => some v
      | none => dictGet? l2 k := by
  induction kvs with
  | nil => simp [dictGet?]
  | cons hd tl ih =>
    obtain ⟨k2, v2⟩ := hd
    by_cases h : k2 = k <;> simp [dictGet?, h, ih]

lemma dictGet?_setdefault_self (kvs : List (String × Json)) (k : String)
    (v : Json) :
    dictGet? (setdefault kvs k v) k = some ((dictGet? kvs k).getD v) := by
  unfold setdefault
  cases h : dictGet? kvs k with
  | some w => simp [h]
  | none => simp [h, dictGet?_append, dictGet?]

lemma dictGet?_setdefault_other (kvs : List (String × Json)) (k k' : String)
    (v : Json) (hkk : k' ≠ k) :
    dictGet? (setdefault kvs k v) k' = dictGet? kvs k' := by
  unfold setdefault
  cases hk : dictGet? kvs k with
  | some w => rfl
  | none =>
    rw [dictGet?_append]
    cases h2 : dictGet? kvs k' with
    | some w => rfl
    | none => simp [dictGet?, Ne.symm hkk]

lemma setdefault_ne_nil (kvs : List (String × Json)) (k : String) (v : Json) :
    setdefault kvs k v ≠ [] := by
  unfold setdefault
  cases h : dictGet? kvs k with
  | some w =>
    intro hnil
    subst hnil
    simp [dictGet?] at h
  | none => simp

lemma dictGet?_ensure_summary (kvs : List (String × Json)) :
    dictGet? (ensure_kvs kvs) "summary" =
      some ((dictGet? kvs "summary").getD (Json.str "No summary provided.")) := by
  unfold ensure_kvs
  rw [dictGet?_setdefault_other _ "connections" "summary" _ (by decide),
      dictGet?_setdefault_other _ "components" "summary" _ (by decide),
      dictGet?_setdefault_other _ "pattern_id" "summary" _ (by decide),
      dictGet?_setdefault_self]

lemma dictGet?_ensure_pattern (kvs : List (String × Json)) :
    dictGet? (ensure_kvs kvs) "pattern_id" =
      some ((dictGet? kvs "pattern_id").getD (Json.str "unknown")) := by
  unfold ensure_kvs
  rw [dictGet?_setdefault_other _ "connections" "pattern_id" _ (by decide),
      dictGet?_setdefault_other _ "components" "pattern_id" _ (by decide),
      dictGet?_setdefault_self,
      dictGet?_setdefault_other _ "summary" "pattern_id" _ (by decide)]

lemma dictGet?_ensure_components (kvs : List (String × Json)) :
    dictGet? (ensure_kvs kvs) "components" =
      some ((dictGet? kvs "components").getD (Json.arr [])) := by
  unfold ensure_kvs
  rw [dictGet?_setdefault_other _ "connections" "components" _ (by decide),
      dictGet?_setdefault_self,
      dictGet?_setdefault_other _ "pattern_id" "components" _ (by decide),
      dictGet?_setdefault_other _ "summary" "components" _ (by decide)]

lemma dictGet?_ensure_connections (kvs : List (String × Json)) :
    dictGet? (ensure_kvs kvs) "connections" =
      some ((dictGet? kvs "connections").getD (Json.arr [])) := by
  unfold ensure_kvs
  rw [dictGet?_setdefault_self,
      dictGet?_setdefault_other _ "components" "connections" _ (by decide),
      dictGet?_setdefault_other _ "pattern_id" "connections" _ (by decide),
      dictGet?_setdefault_other _ "summary" "connections" _ (by decide)]

lemma ensure_kvs_hasAll (kvs : List (String × Json)) :
    hasAllPlanKeys (ensure_kvs kvs) = true := by
  unfold hasAllPlanKeys
  rw [dictGet?_ensure_summary, dictGet?_ensure_pattern,
      dictGet?_ensure_components, dictGet?_ensure_connections]
  rfl

lemma ensure_kvs_ne_nil (kvs : List (String × Json)) : ensure_kvs kvs ≠ [] :=
  setdefault_ne_nil _ _ _

lemma traverseOption_isSome_eq (f : α → Option β) :
    ∀ xs : List α,
      (traverseOption f xs).isSome = xs.all (fun x => (f x).isSome) := by
  intro xs
  induction xs with
  | nil => rfl
  | cons a as ih =>
    cases hfa : f a with
    | none => simp [traverseOption, hfa]
    | some b =>
      cases hrest : traverseOption f as with
      | none =>
        rw [hrest] at ih
        simp [traverseOption, hfa, hrest, ← ih]
      | some bs =>
        rw [hrest] at ih
        simp [traverseOption, hfa, hrest, ← ih]

lemma traverseOption_isSome_iff (f : α → Option β) (xs : List α) :
    (traverseOption f xs).isSome = true ↔ ∀ x ∈ xs, (f x).isSome = true := by
  rw [traverseOption_isSome_eq]
  simp [List.all_eq_true]

lemma traverseOption_mem_isSome (f : α → Option β) (xs : List α)
    (ys : List β) (h : traverseOption f xs = some ys) (x : α) (hx : x ∈ xs) :
    (f x).isSome = true :=
  (traverseOption_isSome_iff f xs).mp (by rw [h]; rfl) x hx

lemma add_cluster_spec (n lb : String) (comps : List Component)
    (oc : Option Cluster) (h : add_cluster n lb comps = some oc) :
    (comps = [] ∧ oc = none) ∨
    (comps ≠ [] ∧ ∃ ns, traverseOption nodeOf comps = some ns ∧
      oc = some (Cluster.mk n lb ns)) := by
  cases comps with
  | nil =>
    left
    simp [add_cluster] at h
    exact ⟨rfl, h.symm⟩
  | cons c cs =>
    right
    unfold add_cluster at h
    rw [if_neg (List.cons_ne_nil c cs), Option.map_eq_some'] at h
    obtain ⟨ns, hns, hoc⟩ := h
    exact ⟨by simp, ns, hns, hoc.symm⟩

lemma add_cluster_isSome (n lb : String) (comps : List Component)
    (h : ∀ c ∈ comps, (nodeOf c).isSome = true) :
    (add_cluster n lb comps).isSome = true := by
  cases comps with
  | nil => simp [add_cluster]
  | cons c cs =>
    have h2 : (traverseOption nodeOf (c :: cs)).isSome = true :=
      (traverseOption_isSome_iff _ _).mpr h
    obtain ⟨ns, hns⟩ := Option.isSome_iff_exists.mp h2
    simp [add_cluster, hns]

lemma nodeOf_isSome_iff (c : Component) :
    (nodeOf c).isSome = true ↔
      ((c.id?).isSome = true ∧ (c.label?).isSome = true) := by
  cases hi : c.id? <;> cases hl : c.label? <;> simp [nodeOf, hi, hl]

/-- The per-layer relation between a layer and the optional cluster its
`add_cluster` call produced. -/
def clusterRel (p : PlanDict) (l : Layer) (oc : Option Cluster) : Prop :=
  add_cluster (clusterName l) (clusterLabel l) (layerComps p l) = some oc

lemma generate_spec (p : PlanDict) (d : Diagram)
    (h : generate_graphviz_diagram p = some d) :
    ∃ os : List (Option Cluster),
      List.Forall₂ (clusterRel p) layerOrder os ∧
      d.clusters = os.filterMap id ∧
      d.edges = p.connections.filterMap edgeOf := by
  unfold generate_graphviz_diagram at h
  rw [Option.bind_eq_some] at h
  obtain ⟨f, hf, h⟩ := h
  rw [Option.bind_eq_some] at h
  obtain ⟨g, hg, h⟩ := h
  rw [Option.bind_eq_some] at h
  obtain ⟨s, hs, h⟩ := h
  rw [Option.bind_eq_some] at h
  obtain ⟨db, hdb, h⟩ := h
  rw [Option.bind_eq_some] at h
  obtain ⟨pl, hpl, h⟩ := h
  rw [Option.bind_eq_some] at h
  obtain ⟨o, ho, h⟩ := h
  injection h with h
  refine ⟨[f, g, s, db, pl, o],
    List.Forall₂.cons hf (List.Forall₂.cons hg (List.Forall₂.cons hs
      (List.Forall₂.cons hdb (List.Forall₂.cons hpl
        (List.Forall₂.cons ho List.Forall₂.nil))))), ?_, ?_⟩
  · rw [← h]
  · rw [← h]

lemma generate_isSome (p : PlanDict)
    (h : ∀ l : Layer,
      (add_cluster (clusterName l) (clusterLabel l) (layerComps p l)).isSome = true) :
    (generate_graphviz_diagram p).isSome = true := by
  obtain ⟨f, hf⟩ := Option.isSome_iff_exists.mp (h Layer.frontend)
  obtain ⟨g, hg⟩ := Option.isSome_iff_exists.mp (h Layer.gateway)
  obtain ⟨s, hs⟩ := Option.isSome_iff_exists.mp (h Layer.services)
  obtain ⟨db, hdb⟩ := Option.isSome_iff_exists.mp (h Layer.databases)
  obtain ⟨pl, hpl⟩ := Option.isSome_iff_exists.mp (h Layer.pipeline)
  obtain ⟨o, ho⟩ := Option.isSome_iff_exists.mp (h Layer.other)
  simp [generate_graphviz_diagram, hf, hg, hs, hdb, hpl, ho]

lemma forall2_mem_left {α β : Type} {R : α → β → Prop} :
    ∀ {ls : List α} {os : List β}, List.Forall₂ R ls os →
      ∀ a ∈ ls, ∃ b ∈ os, R a b := by
  intro ls os h
  induction h with
  | nil => intro a ha; exact absurd ha (by simp)
  | cons hr _ ih =>
    intro a ha
    rcases List.mem_cons.mp ha with rfl | ha2
    · exact ⟨_, List.mem_cons_self _ _, hr⟩
    · obtain ⟨b, hb, hrb⟩ := ih a ha2
      exact ⟨b, List.mem_cons_of_mem _ hb, hrb⟩

lemma forall2_mem_right {α β : Type} {R : α → β → Prop} :
    ∀ {ls : List α} {os : List β}, List.Forall₂ R ls os →
      ∀ b ∈ os, ∃ a ∈ ls, R a b := by
  intro ls os h
  induction h with
  | nil => intro b hb; exact absurd hb (by simp)
  | cons hr _ ih =>
    intro b hb
    rcases List.mem_cons.mp hb with rfl | hb2
    · exact ⟨_, List.mem_cons_self _ _, hr⟩
    · obtain ⟨a, ha, hrb⟩ := ih b hb2
      exact ⟨a, List.mem_cons_of_mem _ ha, hrb⟩

lemma clusterName_inj (l l' : Layer) (h : clusterName l = clusterName l') :
    l = l' := by
  cases l <;> cases l' <;> first
    | rfl
    | exact absurd h (by decide)

lemma clusters_names_of_forall2 (p : PlanDict) :
    ∀ {ls : List Layer} {os : List (Option Cluster)},
      List.Forall₂ (clusterRel p) ls os →
      (os.filterMap id).map Cluster.name =
        ls.filterMap
          (fun l => if layerComps p l = [] then none else some (clusterName l)) := by
  intro ls os h
  induction h with
  | nil => rfl
  | cons hr _ ih =>
    rcases add_cluster_spec _ _ _ _ hr with ⟨hemp, rfl⟩ | ⟨hne, ns, hns, rfl⟩
    · simp [List.filterMap_cons, hemp, ih]
    · simp [List.filterMap_cons, hne, ih]

lemma layerOf_frontend_iff (c : Component) :
    layerOf c = Layer.frontend ↔ (normType c = "client" ∨ normType c = "web") := by
  unfold layerOf
  split_ifs with h1 h2 h3 h4 h5 <;> simp_all

lemma layerOf_gateway_iff (c : Component) :
    layerOf c = Layer.gateway ↔ normType c = "gateway" := by
  unfold layerOf
  split_ifs with h1 h2 h3 h4 h5
  · rcases h1 with h | h <;> simp [h]
  · simp_all
  · rcases h3 with h | h | h <;> simp [h]
  · rcases h4 with h | h <;> simp [h]
  · rcases h5 with h | h | h <;> simp [h]
  · simp_all

lemma layerOf_services_iff (c : Component) :
    layerOf c = Layer.services ↔
      (normType c = "app" ∨ normType c = "service" ∨
       normType c = "microservice") := by
  unfold layerOf
  split_ifs with h1 h2 h3 h4 h5
  · rcases h1 with h | h <;> simp [h]
  · simp_all
  · simp_all
  · rcases h4 with h | h <;> simp [h]
  · rcases h5 with h | h | h <;> simp [h]
  · simp_all

lemma layerOf_databases_iff (c : Component) :
    layerOf c = Layer.databases ↔
      (normType c = "database" ∨ normType c = "db") := by
  unfold layerOf
  split_ifs with h1 h2 h3 h4 h5
  · rcases h1 with h | h <;> simp [h]
  · simp_all
  · rcases h3 with h | h | h <;> simp [h]
  · simp_all
  · rcases h5 with h | h | h <;> simp [h]
  · simp_all

lemma layerOf_pipeline_iff (c : Component) :
    layerOf c = Layer.pipeline ↔
      (normType c = "data_pipeline" ∨ normType c = "pipeline" ∨
       normType c = "etl") := by
  unfold layerOf
  split_ifs with h1 h2 h3 h4 h5
  · rcases h1 with h | h <;> simp [h]
  · simp_all
  · rcases h3 with h | h | h <;> simp [h]
  · rcases h4 with h | h <;> simp [h]
  · simp_all
  · simp_all

lemma layerOf_other_iff (c : Component) :
    layerOf c = Layer.other ↔
      ¬(normType c = "client" ∨ normType c = "web" ∨
        normType c = "gateway" ∨
        normType c = "app" ∨ normType c = "service" ∨
        normType c = "microservice" ∨
        normType c = "database" ∨ normType c = "db" ∨
        normType c = "data_pipeline" ∨ normType c = "pipeline" ∨
        normType c = "etl") := by
  unfold layerOf
  split_ifs with h1 h2 h3 h4 h5 <;> simp_all <;> tauto

/-- Claim C4: the Diagram Synthesizer assigns every component to exactly
one of the six fixed groups by a case-insensitive match on its type field
(client/web to Frontend, gateway to API Gateway, app/service/microservice
to Services, database/db to Databases, data_pipeline/pipeline/etl to
Reporting/Data Pipeline, anything else to Other); unrecognized types
never cause an error (classification is total), and a group with zero
members produces no cluster in the output. -/
theorem C4_classification (p : PlanDict) (d : Diagram)
    (h : generate_graphviz_diagram p = some d) :
    (∀ c : Component,
      (layerOf c = Layer.frontend ↔
        (normType c = "client" ∨ normType c = "web")) ∧
      (layerOf c = Layer.gateway ↔ normType c = "gateway") ∧
      (layerOf c = Layer.services ↔
        (normType c = "app" ∨ normType c = "service" ∨
         normType c = "microservice")) ∧
      (layerOf c = Layer.databases ↔
        (normType c = "database" ∨ normType c = "db")) ∧
      (layerOf c = Layer.pipeline ↔
        (normType c = "data_pipeline" ∨ normType c = "pipeline" ∨
         normType c = "etl")) ∧
      (layerOf c = Layer.other ↔
        ¬(normType c = "client" ∨ normType c = "web" ∨
          normType c = "gateway" ∨
          normType c = "app" ∨ normType c = "service" ∨
          normType c = "microservice" ∨
          normType c = "database" ∨ normType c = "db" ∨
          normType c = "data_pipeline" ∨ normType c = "pipeline" ∨
          normType c = "etl"))) ∧
    (∀ l : Layer,
      (∃ cl ∈ d.clusters, cl.name = clusterName l) ↔ layerComps p l ≠ []) := by
  refine ⟨fun c => ⟨layerOf_frontend_iff c, layerOf_gateway_iff c,
    layerOf_services_iff c, layerOf_databases_iff c, layerOf_pipeline_iff c,
    layerOf_other_iff c⟩, ?_⟩
  intro l
  obtain ⟨os, hfa, hcl, _⟩ := generate_spec p d h
  constructor
  · rintro ⟨cl, hclmem, hname⟩
    rw [hcl, List.mem_filterMap] at hclmem
    obtain ⟨oc, hocmem, hid⟩ := hclmem
    obtain ⟨l', _, hrel⟩ := forall2_mem_right hfa oc hocmem
    rcases add_cluster_spec _ _ _ _ hrel with ⟨_, hocn⟩ | ⟨hne, ns, _, hocs⟩
    · rw [hocn] at hid; simp at hid
    · rw [hocs] at hid
      simp at hid
      have hnm : clusterName l' = clusterName l := by
        rw [← hid] at hname
        exact hname
      rw [← clusterName_inj l' l hnm]
      exact hne
  · intro hne
    have hmem : l ∈ layerOrder := by cases l <;> simp [layerOrder]
    obtain ⟨oc, hocmem, hrel⟩ := forall2_mem_left hfa l hmem
    rcases add_cluster_spec _ _ _ _ hrel with ⟨hemp, _⟩ | ⟨_, ns, _, hocs⟩
    · exact absurd hemp hne
    · refine ⟨Cluster.mk (clusterName l) (clusterLabel l) ns, ?_, rfl⟩
      rw [hcl, List.mem_filterMap]
      exact ⟨oc, hocmem, by rw [hocs]; rfl⟩

/-- A sample plan with one recognized and one unrecognized component
type, used to instantiate C4. -/
def c4SamplePlan : PlanDict :=
  PlanDict.mk
    [Component.mk (some "w") (some "Web UI") (some "web"),
     Component.mk (some "x") (some "Mystery") (some "WeIrD")]
    []

/-- The diagram the synthesizer produces for `c4SamplePlan`. -/
def c4SampleDiagram : Diagram :=
  Diagram.mk
    [Cluster.mk "cluster_frontend" "Frontend" [("w", "Web UI")],
     Cluster.mk "cluster_other" "Other" [("x", "Mystery")]] []

theorem C4_witness :
    (∃ cl ∈ c4SampleDiagram.clusters, cl.name = clusterName Layer.other) ↔
      layerComps c4SamplePlan Layer.other ≠ [] :=
  (C4_classification c4SamplePlan c4SampleDiagram (by rfl)).2 Layer.other

/-- Claim C2 (amended): a connection is emitted as a directed labeled edge
if and only if both its endpoints are present and non-empty (Python
truthiness); a connection with a missing or empty endpoint is silently
dropped and no error is raised; endpoints are never checked against the
plan's component ids, so a connection with unknown endpoints is still
emitted. -/
theorem C2_edge_emission (p : PlanDict) (d : Diagram)
    (h : generate_graphviz_diagram p = some d) :
    d.edges = p.connections.filterMap edgeOf ∧
    (∀ conn : Connection,
      (edgeOf conn).isSome = (pyTruthy conn.src? && pyTruthy conn.dst?)) ∧
    (∀ conn ∈ p.connections, ∀ e, edgeOf conn = some e → e ∈ d.edges) := by
  obtain ⟨_, _, _, hedges⟩ := generate_spec p d h
  refine ⟨hedges, ?_, ?_⟩
  · intro conn
    cases hs : conn.src? with
    | none => simp [edgeOf, pyTruthy, hs]
    | some s =>
      cases hd : conn.dst? with
      | none => simp [edgeOf, pyTruthy, hs, hd]
      | some t =>
        by_cases h1 : s = "" <;> by_cases h2 : t = "" <;>
          simp [edgeOf, pyTruthy, hs, hd, h1, h2]
  · intro conn hconn e he
    rw [hedges, List.mem_filterMap]
    exact ⟨conn, hconn, he⟩

/-- Claim C2, refuting the original statement: the plan below has no
components at all (so no endpoint can resolve to a known component id),
yet its single connection is emitted as the edge `a -> b` instead of
being dropped. -/
theorem C2_counterexample :
    generate_graphviz_diagram
        (PlanDict.mk [] [Connection.mk (some "a") (some "b") none]) =
      some (Diagram.mk [] [("a", "b", "")]) ∧
    (PlanDict.mk [] [Connection.mk (some "a") (some "b") none]).components.filterMap
        Component.id? = [] :=
  ⟨rfl, rfl⟩

/-- A sample plan whose only connection lacks its `to` endpoint, used to
instantiate C2. -/
def c2SamplePlan : PlanDict :=
  PlanDict.mk [] [Connection.mk (some "a") none (some "L")]

theorem C2_witness :
    (Diagram.mk [] []).edges = c2SamplePlan.connections.filterMap edgeOf :=
  (C2_edge_emission c2SamplePlan (Diagram.mk [] []) (by rfl)).1

/-- Claim C7: the groups are emitted in the fixed order Frontend, API
Gateway, Services, Databases, Reporting/Data Pipeline, Other regardless of
the order of the input components (the cluster-name sequence is the fixed
layer order filtered to non-empty groups); within each group the
components appear in the plan's original order (the group's nodes are the
in-order traversal of the in-order filter of the component list); the edge
set is the in-order filter of the connection list; and re-running the
classification and emission on the unchanged plan yields the same result
(the synthesizer is deterministic apart from the output artifact name,
which is outside the embedding). -/
theorem C7_emission_order (p : PlanDict) (d : Diagram)
    (h : generate_graphviz_diagram p = some d) :
    d.clusters.map Cluster.name =
      layerOrder.filterMap
        (fun l => if layerComps p l = [] then none else some (clusterName l)) ∧
    (∀ cl ∈ d.clusters, ∃ l : Layer,
      cl.name = clusterName l ∧ cl.label = clusterLabel l ∧
      traverseOption nodeOf (layerComps p l) = some cl.nodes) ∧
    d.edges = p.connections.filterMap edgeOf ∧
    (∀ d2 : Diagram, generate_graphviz_diagram p = some d2 → d2 = d) := by
  obtain ⟨os, hfa, hcl, hedges⟩ := generate_spec p d h
  refine ⟨by rw [hcl]; exact clusters_names_of_forall2 p hfa, ?_, hedges, ?_⟩
  · intro cl hclmem
    rw [hcl, List.mem_filterMap] at hclmem
    obtain ⟨oc, hocmem, hid⟩ := hclmem
    obtain ⟨l', _, hrel⟩ := forall2_mem_right hfa oc hocmem
    rcases add_cluster_spec _ _ _ _ hrel with ⟨_, hocn⟩ | ⟨_, ns, hns, hocs⟩
    · rw [hocn] at hid; simp at hid
    · rw [hocs] at hid
      simp at hid
      exact ⟨l', by rw [← hid], by rw [← hid], by rw [← hid]; exact hns⟩
  · intro d2 h2
    rw [h] at h2
    exact (Option.some_inj.mp h2).symm

/-- A sample plan with components out of visual order, used to
instantiate C7. -/
def c7SamplePlan : PlanDict :=
  PlanDict.mk
    [Component.mk (some "d") (some "DB") (some "db"),
     Component.mk (some "w") (some "Web") (some "web")]
    [Connection.mk (some "w") (some "d") (some "SQL")]

/-- The diagram the synthesizer produces for `c7SamplePlan`. -/
def c7SampleDiagram : Diagram :=
  Diagram.mk
    [Cluster.mk "cluster_frontend" "Frontend" [("w", "Web")],
     Cluster.mk "cluster_databases" "Databases" [("d", "DB")]]
    [("w", "d", "SQL")]

theorem C7_witness :
    c7SampleDiagram.clusters.map Cluster.name =
      layerOrder.filterMap
        (fun l => if layerComps c7SamplePlan l = [] then none
                  else some (clusterName l)) :=
  (C7_emission_order c7SamplePlan c7SampleDiagram (by rfl)).1

/-- Claim C10: the synthesizer succeeds exactly when every component of
the plan carries both an `id` and a `label` key; any component missing
either key makes node emission raise KeyError (its own group is non-empty
because it contains that component), so `synthesize` has the implicit
precondition that every component has both keys. -/
theorem C10_id_label_precondition (p : PlanDict) :
    (generate_graphviz_diagram p).isSome = true ↔
      ∀ c ∈ p.components, (c.id?).isSome = true ∧ (c.label?).isSome = true := by
  constructor
  · intro hsome
    obtain ⟨d, hd⟩ := Option.isSome_iff_exists.mp hsome
    obtain ⟨os, hfa, _, _⟩ := generate_spec p d hd
    intro c hc
    have hcmem : c ∈ layerComps p (layerOf c) :=
      List.mem_filter.mpr ⟨hc, by simp⟩
    have hlmem : layerOf c ∈ layerOrder := by
      cases hl : layerOf c <;> simp [layerOrder]
    obtain ⟨oc, _, hrel⟩ := forall2_mem_left hfa (layerOf c) hlmem
    rcases add_cluster_spec _ _ _ _ hrel with ⟨hemp, _⟩ | ⟨_, ns, hns, _⟩
    · rw [hemp] at hcmem
      exact absurd hcmem (by simp)
    · exact (nodeOf_isSome_iff c).mp
        (traverseOption_mem_isSome nodeOf _ ns hns c hcmem)
  · intro hall
    refine generate_isSome p (fun l => add_cluster_isSome _ _ _ ?_)
    intro c hc
    exact (nodeOf_isSome_iff c).mpr (hall c (List.mem_filter.mp hc).1)

theorem C10_witness :
    (generate_graphviz_diagram
        (PlanDict.mk [Component.mk (some "a") (some "A") none] [])).isSome =
      true :=
  (C10_id_label_precondition
      (PlanDict.mk [Component.mk (some "a") (some "A") none] [])).mpr
    (by decide)

/-- Claim C1 (amended): the parse-and-repair stage returns a plan with all
four top-level keys (substituting the documented default for any key the
decoded payload lacks) whenever the cleaned text fails to decode or
decodes to a JSON object; but when the cleaned text decodes to a non-object
value the `setdefault` block raises an uncaught AttributeError, so the
stage is not total over all raw texts. -/
theorem C1_amended_validator (raw : String) :
    (json_loads (clean_model_output raw) = none →
      parse_and_repair raw =
        some (_fallback_architecture "Could not parse JSON from model output.")) ∧
    (∀ kvs, json_loads (clean_model_output raw) = some (Json.obj kvs) →
      parse_and_repair raw = some (Json.obj (ensure_kvs kvs)) ∧
      hasAllPlanKeys (ensure_kvs kvs) = true ∧
      (dictGet? kvs "summary" = none →
        dictGet? (ensure_kvs kvs) "summary" =
          some (Json.str "No summary provided.")) ∧
      (dictGet? kvs "pattern_id" = none →
        dictGet? (ensure_kvs kvs) "pattern_id" = some (Json.str "unknown")) ∧
      (dictGet? kvs "components" = none →
        dictGet? (ensure_kvs kvs) "components" = some (Json.arr [])) ∧
      (dictGet? kvs "connections" = none →
        dictGet? (ensure_kvs kvs) "connections" = some (Json.arr []))) ∧
    (∀ j, json_loads (clean_model_output raw) = some j → isJsonObj j = false →
      parse_and_repair raw = none) := by
  refine ⟨?_, ?_, ?_⟩
  · intro h
    unfold parse_and_repair
    rw [h]
    rfl
  · intro kvs h
    unfold parse_and_repair
    rw [h]
    refine ⟨rfl, ensure_kvs_hasAll kvs, ?_, ?_, ?_, ?_⟩
    · intro hn; rw [dictGet?_ensure_summary, hn]; rfl
    · intro hn; rw [dictGet?_ensure_pattern, hn]; rfl
    · intro hn; rw [dictGet?_ensure_components, hn]; rfl
    · intro hn; rw [dictGet?_ensure_connections, hn]; rfl
  · intro j h hobj
    unfold parse_and_repair
    rw [h]
    cases j <;> first
      | rfl
      | simp [isJsonObj] at hobj

/-- Claim C1, refuting the original statement: the raw text `"42"` decodes
successfully (to a non-object payload), and the repair stage then fails
with an AttributeError instead of returning a plan. -/
theorem C1_counterexample :
    json_loads (clean_model_output "42") = some (Json.num "42") ∧
    parse_and_repair "42" = none :=
  ⟨rfl, rfl⟩

theorem C1_witness :
    parse_and_repair "xyzzy" =
      some (_fallback_architecture "Could not parse JSON from model output.") :=
  (C1_amended_validator "xyzzy").1 rfl

/-- Claim C3: whenever the cleaned model output cannot be decoded, the
validator returns exactly the fixed fallback plan: pattern id
`fallback_three_tier`, the four components `client`, `web`, `app`, `db`,
the three connections labeled `HTTP/HTTPS`, `Internal HTTP`, `SQL`, and a
summary naming the failure reason. -/
theorem C3_fallback_on_decode_failure (raw : String)
    (h : json_loads (clean_model_output raw) = none) :
    parse_and_repair raw = some (Json.obj [
      ("summary", Json.str
        "Fallback architecture used because: Could not parse JSON from model output.\n\nThis is a simple three-tier web application."),
      ("pattern_id", Json.str "fallback_three_tier"),
      ("components", Json.arr [
        Json.obj [("id", Json.str "client"), ("label", Json.str "Client"),
          ("type", Json.str "client")],
        Json.obj [("id", Json.str "web"), ("label", Json.str "Web Server"),
          ("type", Json.str "web")],
        Json.obj [("id", Json.str "app"),
          ("label", Json.str "Application Server"), ("type", Json.str "app")],
        Json.obj [("id", Json.str "db"), ("label", Json.str "Database"),
          ("type", Json.str "database")]]),
      ("connections", Json.arr [
        Json.obj [("from", Json.str "client"), ("to", Json.str "web"),
          ("label", Json.str "HTTP/HTTPS")],
        Json.obj [("from", Json.str "web"), ("to", Json.str "app"),
          ("label", Json.str "Internal HTTP")],
        Json.obj [("from", Json.str "app"), ("to", Json.str "db"),
          ("label", Json.str "SQL")]])]) := by
  unfold parse_and_repair
  rw [h]
  rfl

theorem C3_witness :
    parse_and_repair "not json at all" = some (Json.obj [
      ("summary", Json.str
        "Fallback architecture used because: Could not parse JSON from model output.\n\nThis is a simple three-tier web application."),
      ("pattern_id", Json.str "fallback_three_tier"),
      ("components", Json.arr [
        Json.obj [("id", Json.str "client"), ("label", Json.str "Client"),
          ("type", Json.str "client")],
        Json.obj [("id", Json.str "web"), ("label", Json.str "Web Server"),
          ("type", Json.str "web")],
        Json.obj [("id", Json.str "app"),
          ("label", Json.str "Application Server"), ("type", Json.str "app")],
        Json.obj [("id", Json.str "db"), ("label", Json.str "Database"),
          ("type", Json.str "database")]]),
      ("connections", Json.arr [
        Json.obj [("from", Json.str "client"), ("to", Json.str "web"),
          ("label", Json.str "HTTP/HTTPS")],
        Json.obj [("from", Json.str "web"), ("to", Json.str "app"),
          ("label", Json.str "Internal HTTP")],
        Json.obj [("from", Json.str "app"), ("to", Json.str "db"),
          ("label", Json.str "SQL")]])]) :=
  C3_fallback_on_decode_failure "not json at all" rfl

/-- Claim C9: on the exact fenced raw output containing only a summary
key, the validator strips the fencing and returns the plan with that
summary, pattern id `unknown`, and empty component and connection lists
(the `setdefault` repair appends the three missing keys in order). -/
theorem C9_fenced_summary_scenario :
    parse_and_repair "```json\n\x7b\"summary\":\"<h3>Overview</h3>\"\x7d\n```" =
      some (Json.obj [
        ("summary", Json.str "<h3>Overview</h3>"),
        ("pattern_id", Json.str "unknown"),
        ("components", Json.arr []),
        ("connections", Json.arr [])]) :=
  rfl

/-- Claim C6: a connectivity or gateway-server failure of the generative
call makes `_call_model` raise a `RuntimeError`, which `api_chat` surfaces
to the caller as a 502 upstream-failure payload and never as a plan;
whereas raw output that cannot be decoded never surfaces an error: the
turn succeeds with the substituted fallback plan. -/
theorem C6_error_propagation (raw : String)
    (h : json_loads (clean_model_output raw) = none) :
    api_chat_dispatch (_call_model LLMOutcome.internalServerError) =
      ApiOutcome.badGateway
        "Server error from genailab.tcs.in (500). Check gateway logs / configuration." ∧
    api_chat_dispatch (_call_model LLMOutcome.connectionFailure) =
      ApiOutcome.badGateway
        "Connection error: unable to reach Azure OpenAI. Please check network / VPN." ∧
    (∀ j, _call_model LLMOutcome.internalServerError ≠ CallResult.plan j) ∧
    (∀ j, _call_model LLMOutcome.connectionFailure ≠ CallResult.plan j) ∧
    _call_model (LLMOutcome.ok raw) =
      CallResult.plan
        (_fallback_architecture "Could not parse JSON from model output.") ∧
    api_chat_dispatch (_call_model (LLMOutcome.ok raw)) =
      ApiOutcome.success
        (_fallback_architecture "Could not parse JSON from model output.") := by
  have hpr : parse_and_repair raw =
      some (_fallback_architecture "Could not parse JSON from model output.") := by
    unfold parse_and_repair
    rw [h]
    rfl
  have hcm : _call_model (LLMOutcome.ok raw) =
      CallResult.plan
        (_fallback_architecture "Could not parse JSON from model output.") := by
    simp [_call_model, hpr]
  refine ⟨rfl, rfl, fun j hj => CallResult.noConfusion hj,
    fun j hj => CallResult.noConfusion hj, hcm, ?_⟩
  rw [hcm]
  rfl

theorem C6_witness :
    _call_model (LLMOutcome.ok "mumble") =
      CallResult.plan
        (_fallback_architecture "Could not parse JSON from model output.") :=
  (C6_error_propagation "mumble" rfl).2.2.2.2.1

lemma ensure_plan_keys_truthy (j j2 : Json) (h : ensure_plan_keys j = some j2) :
    jsonTruthy j2 = true := by
  cases j <;> simp [ensure_plan_keys] at h
  rw [← h]
  rename_i kvs
  cases hE : ensure_kvs kvs with
  | nil => exact absurd hE (ensure_kvs_ne_nil kvs)
  | cons a as => simp [jsonTruthy, hE]

lemma call_model_plan_truthy (o : LLMOutcome) (j : Json)
    (h : _call_model o = CallResult.plan j) : jsonTruthy j = true := by
  cases o with
  | internalServerError => exact CallResult.noConfusion h
  | connectionFailure => exact CallResult.noConfusion h
  | ok raw =>
    cases hpr : parse_and_repair raw with
    | none => simp [_call_model, hpr] at h
    | some j2 =>
      simp [_call_model, hpr] at h
      rw [← h]
      unfold parse_and_repair at hpr
      exact ensure_plan_keys_truthy _ _ hpr

lemma call_llm_spec (oracle : String → Option Json → LLMOutcome)
    (s s' : ArchState) (m : String) (p : Json)
    (h : call_llm_for_architecture oracle s m = some (s', p)) :
    _call_model (oracle m s.arch_history.getLast?) = CallResult.plan p ∧
    s' = ArchState.mk (s.messages ++ [m]) p (s.arch_history ++ [p]) := by
  simp only [call_llm_for_architecture, graph_invoke, _llm_node, mergeState,
    initialState, List.append_nil, List.getLast?_concat] at h
  cases hcm : _call_model (oracle m s.arch_history.getLast?) with
  | plan j =>
    have hj := call_model_plan_truthy _ _ hcm
    rw [hcm] at h
    simp [mergeState, hj] at h
    obtain ⟨hs', hp⟩ := h
    have hp' : p = j := hp.symm
    subst hp'
    exact ⟨rfl, hs'.symm⟩
  | runtimeError msg => rw [hcm] at h; simp at h
  | attributeError => rw [hcm] at h; simp at h

/-- Claim C5: the baseline handed to the Prompt Composer is absent exactly
when the conversation's plan history is empty (FRESH mode); after a
successful turn the next call for the same conversation passes, as
baseline, exactly the plan returned by the previous turn (REFINING mode);
and each successful turn appends exactly one plan to the history. -/
theorem C5_baseline_refinement (oracle : String → Option Json → LLMOutcome)
    (s s1 s2 : ArchState) (m1 m2 : String) (p1 p2 : Json)
    (h1 : call_llm_for_architecture oracle s m1 = some (s1, p1))
    (h2 : call_llm_for_architecture oracle s1 m2 = some (s2, p2)) :
    (baseline_for_turn s m1 = none ↔ s.arch_history = []) ∧
    s1.arch_history = s.arch_history ++ [p1] ∧
    baseline_for_turn s1 m2 = some p1 ∧
    s2.arch_history = s1.arch_history ++ [p2] := by
  obtain ⟨hcm1, hs1⟩ := call_llm_spec oracle s s1 m1 p1 h1
  obtain ⟨hcm2, hs2⟩ := call_llm_spec oracle s1 s2 m2 p2 h2
  refine ⟨?_, by rw [hs1], ?_, by rw [hs2]⟩
  · simp [baseline_for_turn, mergeState, initialState,
      List.getLast?_eq_none_iff]
  · simp [baseline_for_turn, mergeState, initialState, hs1,
      List.getLast?_concat]

/-- The oracle of the C5 witness: the model always answers with an empty
JSON object. -/
def c5Oracle : String → Option Json → LLMOutcome :=
  fun _ _ => LLMOutcome.ok "\x7b\x7d"

/-- The plan the repair stage builds from an empty JSON object. -/
def defaultRepairedPlan : Json :=
  Json.obj [("summary", Json.str "No summary provided."),
    ("pattern_id", Json.str "unknown"),
    ("components", Json.arr []), ("connections", Json.arr [])]

/-- The stored state of a fresh conversation. -/
def c5EmptyState : ArchState := ArchState.mk [] emptyPlan []

/-- The stored state after the first witnessed turn. -/
def c5State1 : ArchState :=
  ArchState.mk ["a"] defaultRepairedPlan [defaultRepairedPlan]

/-- The stored state after the second witnessed turn. -/
def c5State2 : ArchState :=
  ArchState.mk ["a", "b"] defaultRepairedPlan
    [defaultRepairedPlan, defaultRepairedPlan]

theorem C5_witness :
    (baseline_for_turn c5EmptyState "a" = none ↔
      c5EmptyState.arch_history = []) ∧
    c5State1.arch_history = c5EmptyState.arch_history ++ [defaultRepairedPlan] ∧
    baseline_for_turn c5State1 "b" = some defaultRepairedPlan ∧
    c5State2.arch_history = c5State1.arch_history ++ [defaultRepairedPlan] :=
  C5_baseline_refinement c5Oracle c5EmptyState c5State1 c5State2 "a" "b"
    defaultRepairedPlan defaultRepairedPlan (by rfl) (by rfl)

/-- One step of the enumerated history loop, as a function of the
`(index, entry)` pair: skip empty entries after stripping, keep the entry
at index 0 verbatim, prefix later entries. -/
def histEntry (p : Nat × String) : Option String :=
  if py_strip p.2 = "" then none
  else if p.1 = 0 then some (py_strip p.2)
  else some (refinement_marker ++ py_strip p.2)

lemma history_parts_eq_enumFrom (h : List String) :
    ∀ n : Nat, history_parts n h = (List.enumFrom n h).filterMap histEntry := by
  induction h with
  | nil => intro n; rfl
  | cons a as ih =>
    intro n
    rw [List.enumFrom_cons, List.filterMap_cons]
    by_cases hm : py_strip a = ""
    · simp [history_parts, histEntry, hm, ih]
    · by_cases hn : n = 0 <;> simp [history_parts, histEntry, hm, hn, ih]

/-- The concatenation convention as the code actually implements it:
entries are stripped, empty entries are skipped, the entry at index 0 of
`history` (when non-empty after stripping) is kept verbatim, every entry
at a later index is prefixed with the marker, and the stripped message is
prefixed unless no history part was collected (then it is verbatim). -/
def amended_parts (history : List String) (message : String) : List String :=
  let hist := (List.enumFrom 0 history).filterMap histEntry
  let um := py_strip message
  hist ++ (if um = "" then []
           else if hist = [] then [um]
           else [refinement_marker ++ um])

/-- Claim C8 (amended): the caller strips each entry and skips entries
that are empty after stripping; the entry at index 0 of the history is
included verbatim (after stripping), every entry at a later index and the
final message are prefixed with the marker - except that the message is
included verbatim when no history part survived - and the parts are
joined by blank lines with the result stripped. -/
theorem C8_concatenation (history : List String) (message : String) :
    build_parts history message = amended_parts history message ∧
    full_requirements_text history message =
      py_strip (String.intercalate "\n\n" (amended_parts history message)) := by
  have hbp : build_parts history message = amended_parts history message := by
    unfold build_parts amended_parts
    rw [history_parts_eq_enumFrom]
    by_cases hm : py_strip message = ""
    · simp [hm]
    · by_cases hp : (List.enumFrom 0 history).filterMap histEntry = [] <;>
        simp [hm, hp]
  exact ⟨hbp, by unfold full_requirements_text; rw [hbp]⟩

/-- The concatenation convention exactly as the claim words it: first
historical entry verbatim, every later entry and the final message
prefixed with the marker, all joined by blank lines. -/
def claimed_parts (history : List String) (message : String) : List String :=
  match history with
  | [] => [message]
  | h0 :: rest =>
    h0 :: (rest ++ [message]).map (fun e => refinement_marker ++ e)

/-- The text the claim's convention would produce. -/
def claimed_text (history : List String) (message : String) : String :=
  String.intercalate "\n\n" (claimed_parts history message)

/-- Claim C8, refuting the original statement: for the history `[""]`
(one empty entry) and message `"m"`, the code emits `"m"` with no
refinement marker at all - the claimed convention (first historical entry
verbatim, the subsequent final message prefixed, blank-line joins) yields
a different text, so the claimed shape does not hold for histories with
empty entries. -/
theorem C8_counterexample :
    full_requirements_text [""] "m" = "m" ∧
    claimed_text [""] "m" = "\n\nRefinement request: m" ∧
    ("m" : String) ≠ "\n\nRefinement request: m" :=
  ⟨rfl, rfl, by decide⟩

theorem C8_witness :
    build_parts ["base"] "more" = amended_parts ["base"] "more" :=
  (C8_concatenation ["base"] "more").1
